import Mathlib

/-!
Verification of the scoring, classification and roadmap-progress engine of
the SMSI ISO 27001 backend (Express/Mongoose).

JavaScript numbers are modelled as rationals (`ℚ`); the operations the engine
applies to them (addition, multiplication by 0.5, division of small integer
counts, comparison) are exact on the values arising here.  Dates are modelled
as abstract integer timestamps.
-/

/-- The four PDCA categories, as in the `enum ['Plan', 'Do', 'Check', 'Act']`
of both the response validator and the task schema. -/
inductive Category where
  | Plan
  | Do
  | Check
  | Act
deriving DecidableEq, Repr

/-- A raw questionnaire response as accepted by `POST /api/questionnaires`.
The `response` field is kept as a raw string because the route validator is
what restricts it to `Oui`/`Non`/`Partiellement`; `weight` is a number
(the validator only requires `isNumeric`), `category` is already restricted
by its own `isIn` validator, and `critical` by `isBoolean`. -/
structure ResponseInput where
  questionId : String
  questionText : String
  category : Category
  clause : String
  weight : ℚ
  critical : Bool
  response : String
deriving DecidableEq, Repr

/-- Per-response score, submission path
(`router.post('/')` in routes/questionnaires.js, lines 62-75):
`score = weight` for `Oui`, `weight * 0.5` for `Partiellement`, `0` otherwise
(`Non` gets 0 points). -/
def scoreResponsePost (r : ResponseInput) : ℚ :=
  if r.response = "Oui" then r.weight
  else if r.response = "Partiellement" then r.weight * (1/2)
  else 0

/-- Per-response score, update path
(`router.put('/:id')` in routes/questionnaires.js, lines 247-255). -/
def scoreResponsePut (r : ResponseInput) : ℚ :=
  if r.response = "Oui" then r.weight
  else if r.response = "Partiellement" then r.weight * (1/2)
  else 0

/-- The `isIn(['Oui', 'Non', 'Partiellement'])` check of the
`responses.*.response` validator. -/
def isValidResponseValue (s : String) : Bool :=
  s == "Oui" || s == "Non" || s == "Partiellement"

/-- The per-response validators of `POST /api/questionnaires`:
`questionId`/`questionText`/`clause` must be non-empty, `response` must be in
the enumerated set.  `category` (`isIn`) and `critical` (`isBoolean`) are
enforced by the types of the model; `weight` is checked only with
`isNumeric()`, which every `ℚ` value satisfies, so no condition on the sign
or size of `weight` appears here. -/
def validateResponse (r : ResponseInput) : Bool :=
  !(r.questionId == "") && !(r.questionText == "") && !(r.clause == "")
    && isValidResponseValue r.response

/-- A stored response, with the derived `score` attached as in
`{ ...response, score }`. -/
structure ScoredResponse where
  input : ResponseInput
  score : ℚ
deriving DecidableEq, Repr

/-- Errors surfaced by the questionnaire routes. -/
inductive SubmitError where
  | validationFailed
deriving DecidableEq, Repr

/-- A questionnaire record as far as the submission path constructs it:
the stored scored responses (the derived overall/category scores and the
maturity level live in the Questionnaire model, outside the routes). -/
structure SubmittedQuestionnaire where
  userId : String
  responses : List ScoredResponse
deriving DecidableEq, Repr

/-- The `POST /api/questionnaires` handler, up to persistence: run the
validators (`isArray({ min: 1 })` on the list plus the per-response
validators); on any validation error return 400 before any state is touched;
otherwise score every response and create the questionnaire. -/
def submitQuestionnaire (userId : String) (responses : List ResponseInput) :
    Except SubmitError SubmittedQuestionnaire :=
  if responses.length < 1 then .error .validationFailed
  else if !(responses.all validateResponse) then .error .validationFailed
  else .ok { userId := userId
             responses := responses.map (fun r => ⟨r, scoreResponsePost r⟩) }

/-- A maturity tier: level name, display color, description. -/
structure MaturityLevel where
  level : String
  color : String
  description : String
deriving DecidableEq, Repr

/-- The MaturityClassifier `questionnaireSchema.methods.getMaturityLevel`
(Questionnaire model, middleware/auth.js second document, lines 376-408):
`score >= 90` Excellence, `>= 75` Avancé, `>= 60` Intermédiaire,
`>= 40` Basique, otherwise Critique. -/
def getMaturityLevel (score : ℚ) : MaturityLevel :=
  if 90 ≤ score then ⟨"Excellence", "success", "SMSI mature et robuste"⟩
  else if 75 ≤ score then ⟨"Avancé", "info", "SMSI bien structuré"⟩
  else if 60 ≤ score then ⟨"Intermédiaire", "warning", "SMSI en développement"⟩
  else if 40 ≤ score then ⟨"Basique", "secondary", "SMSI en phase initiale"⟩
  else ⟨"Critique", "danger", "SMSI nécessite une attention immédiate"⟩

/-- Task status enum `['Not Started', 'In Progress', 'Completed', 'On Hold']`. -/
inductive TaskStatus where
  | NotStarted
  | InProgress
  | Completed
  | OnHold
deriving DecidableEq, Repr

/-- Task priority enum `['Critical', 'High', 'Medium', 'Low']`. -/
inductive Priority where
  | Critical
  | High
  | Medium
  | Low
deriving DecidableEq, Repr

/-- A task embedded in a roadmap (taskSchema; the mongoose model is named Task, which Lean reserves).  `id` models the subdocument
`_id` used by `this.tasks.id(taskId)`; `completedDate` is an optional
timestamp.  Effort and cost buckets are kept as their enum strings. -/
structure RoadmapTask where
  id : Nat
  title : String
  description : String
  category : Category
  priority : Priority
  estimatedEffort : String
  cost : String
  status : TaskStatus
  completedDate : Option Int
deriving DecidableEq, Repr

/-- A milestone embedded in a roadmap (milestoneSchema). -/
structure Milestone where
  title : String
  description : String
  targetDate : Int
  status : String
  completionPercentage : ℚ
deriving DecidableEq, Repr

/-- JavaScript `Math.round` on the (non-negative) rationals arising here:
round half away from zero, i.e. `⌊x + 1/2⌋`. -/
def jsRound (x : ℚ) : Int :=
  ⌊x + 1/2⌋

/-- `completedTasks` count of the `overallProgress` virtual:
`this.tasks.filter(task => task.status === 'Completed').length`. -/
def completedCount (tasks : List RoadmapTask) : Nat :=
  (tasks.filter (fun t => t.status == .Completed)).length

/-- The `overallProgress` virtual: `0` on an empty task list, else
`Math.round((completedTasks / this.tasks.length) * 100)`. -/
def overallProgress (tasks : List RoadmapTask) : Int :=
  if tasks.length = 0 then 0
  else jsRound ((completedCount tasks : ℚ) / (tasks.length : ℚ) * 100)

/-- A `{ Plan: _, Do: _, Check: _, Act: _ }` record of counters, as built by
the `categoryProgress` virtual. -/
structure CatCounts where
  plan : Nat
  pdo : Nat
  check : Nat
  act : Nat
deriving DecidableEq, Repr

/-- Read the counter of one category. -/
def CatCounts.get (m : CatCounts) (c : Category) : Nat :=
  match c with
  | .Plan => m.plan
  | .Do => m.pdo
  | .Check => m.check
  | .Act => m.act

/-- `categoryProgress[task.category] += 1` / `categoryCounts[task.category] += 1`. -/
def CatCounts.bump (m : CatCounts) (c : Category) : CatCounts :=
  match c with
  | .Plan => { m with plan := m.plan + 1 }
  | .Do => { m with pdo := m.pdo + 1 }
  | .Check => { m with check := m.check + 1 }
  | .Act => { m with act := m.act + 1 }

/-- First `forEach` of the `categoryProgress` virtual: count the completed
tasks of each category. -/
def completedPerCategory (tasks : List RoadmapTask) : CatCounts :=
  tasks.foldl (fun m t => if t.status == .Completed then m.bump t.category else m)
    ⟨0, 0, 0, 0⟩

/-- Second `forEach` of the `categoryProgress` virtual: count all tasks of
each category. -/
def countsPerCategory (tasks : List RoadmapTask) : CatCounts :=
  tasks.foldl (fun m t => m.bump t.category) ⟨0, 0, 0, 0⟩

/-- The `progress.byCategory` record `{ Plan, Do, Check, Act }`. -/
structure CatProgress where
  plan : Int
  pdo : Int
  check : Int
  act : Int
deriving DecidableEq, Repr

/-- Read one category of a `byCategory` record. -/
def CatProgress.get (m : CatProgress) (c : Category) : Int :=
  match c with
  | .Plan => m.plan
  | .Do => m.pdo
  | .Check => m.check
  | .Act => m.act

/-- The final `Object.keys(categoryProgress).forEach` of the virtual:
per category, `Math.round((completed / count) * 100)` when the category has
tasks, else `0`. -/
def categoryProgress (tasks : List RoadmapTask) : CatProgress :=
  let completed := completedPerCategory tasks
  let counts := countsPerCategory tasks
  let pct := fun c => if 0 < (counts.get c) then
      jsRound (((completed.get c) : ℚ) / ((counts.get c) : ℚ) * 100)
    else 0
  ⟨pct .Plan, pct .Do, pct .Check, pct .Act⟩

/-- The stored `progress` field of a roadmap. -/
structure Progress where
  overall : Int
  byCategory : CatProgress
deriving DecidableEq, Repr

/-- The pure recomputation of `progress` from the task sequence: the pair of
the two virtuals that the pre-save hook copies into the stored field. -/
def recomputeProgress (tasks : List RoadmapTask) : Progress :=
  ⟨overallProgress tasks, categoryProgress tasks⟩

/-- Roadmap status enum `['Draft', 'Active', 'On Hold', 'Completed', 'Archived']`. -/
inductive RoadmapStatus where
  | Draft
  | Active
  | OnHold
  | Completed
  | Archived
deriving DecidableEq, Repr

/-- A roadmap document (roadmapSchema), restricted to the fields the
claims touch. -/
structure Roadmap where
  title : String
  description : String
  status : RoadmapStatus
  estimatedTimeline : String
  totalEstimatedCost : String
  tasks : List RoadmapTask
  milestones : List Milestone
  progress : Progress
  lastUpdated : Int
deriving DecidableEq, Repr

/-- The `pre('save')` middleware: when the `tasks` path was modified,
overwrite `progress.overall` and `progress.byCategory` with the virtuals and
refresh `lastUpdated`; otherwise save the document as is. -/
def preSave (r : Roadmap) (tasksModified : Bool) (now : Int) : Roadmap :=
  if tasksModified then
    { r with progress := recomputeProgress r.tasks, lastUpdated := now }
  else r

/-- The mongoose model names registered by the application: `User`,
`Questionnaire` (Questionnaire model, second document of middleware/auth.js)
and `Roadmap` (the Roadmap model file).  The task and milestone schemas are
embedded subdocument schemas and are never registered as models. -/
def registeredModels : List String := ["User", "Questionnaire", "Roadmap"]

/-- Errors surfaced by the roadmap mutators: the `Task not found` throw of
`updateTaskStatus`, and mongoose's `MissingSchemaError` thrown by
`this.model(name)` when no model of that name is registered. -/
inductive RoadmapError where
  | taskNotFound
  | missingSchema (name : String)
deriving DecidableEq, Repr

/-- `roadmapSchema.methods.addTask`: `new this.model('Task')(taskData)`
first resolves the model named `Task` in the connection's registry and
throws `MissingSchemaError` when it is absent — which it always is in this
application — before any mutation; with a registered model the constructed
task would be pushed and saved (the push marks the `tasks` path modified). -/
def Roadmap.addTask (r : Roadmap) (t : RoadmapTask) (now : Int) :
    Except RoadmapError Roadmap :=
  if registeredModels.contains "Task" then
    .ok (preSave { r with tasks := r.tasks ++ [t] } true now)
  else .error (.missingSchema "Task")

/-- The in-place mutation `task.status = status; if Completed then
task.completedDate = new Date()` performed on the found subdocument. -/
def applyStatus (t : RoadmapTask) (st : TaskStatus) (now : Int) : RoadmapTask :=
  let t1 := { t with status := st }
  if st = .Completed then { t1 with completedDate := some now } else t1

/-- Mutate the task resolved by `taskId` (subdocument `_id`s are unique, so
mutating the first occurrence models `this.tasks.id(taskId)`). -/
def updateFirst (tasks : List RoadmapTask) (taskId : Nat) (st : TaskStatus) (now : Int) :
    List RoadmapTask :=
  match tasks with
  | [] => []
  | t :: ts =>
      if t.id = taskId then applyStatus t st now :: ts
      else t :: updateFirst ts taskId st now

/-- `roadmapSchema.methods.updateTaskStatus`: look the task up with
`this.tasks.id(taskId)`; if absent, throw `Task not found` before touching
anything; otherwise set its status (and `completedDate` when completing) and
save, which re-runs the pre-save hook on the modified `tasks` path. -/
def Roadmap.updateTaskStatus (r : Roadmap) (taskId : Nat) (st : TaskStatus)
    (now : Int) : Except RoadmapError Roadmap :=
  match r.tasks.find? (fun t => t.id == taskId) with
  | some _ =>
      .ok (preSave { r with tasks := updateFirst r.tasks taskId st now } true now)
  | none => .error .taskNotFound

/-- `roadmapSchema.methods.addMilestone`:
`new this.model('Milestone')(milestoneData)` resolves the model named
`Milestone`, which is never registered, so the call always throws
`MissingSchemaError` before any mutation; with a registered model the
milestone would be pushed and saved with the `tasks` path untouched, the
pre-save hook leaving `progress` alone. -/
def Roadmap.addMilestone (r : Roadmap) (m : Milestone) (now : Int) :
    Except RoadmapError Roadmap :=
  if registeredModels.contains "Milestone" then
    .ok (preSave { r with milestones := r.milestones ++ [m] } false now)
  else .error (.missingSchema "Milestone")

/-- The optional fields accepted by `PUT /api/roadmaps/:id` (title,
description, status, estimatedTimeline, totalEstimatedCost).  There is no
`progress` field: the route never reads one from the client. -/
structure RoadmapUpdate where
  title : Option String
  description : Option String
  status : Option RoadmapStatus
  estimatedTimeline : Option String
  totalEstimatedCost : Option String
deriving DecidableEq, Repr

/-- The metadata-update handler `PUT /api/roadmaps/:id`: apply each supplied
field and save; the `tasks` path is untouched. -/
def Roadmap.metadataUpdate (r : Roadmap) (u : RoadmapUpdate) (now : Int) : Roadmap :=
  let r1 := { r with
    title := u.title.getD r.title
    description := u.description.getD r.description
    status := u.status.getD r.status
    estimatedTimeline := u.estimatedTimeline.getD r.estimatedTimeline
    totalEstimatedCost := u.totalEstimatedCost.getD r.totalEstimatedCost }
  preSave r1 false now

/-- `progress` is consistent with the task sequence: the stored field equals
the pure recomputation. -/
def progressInvariant (r : Roadmap) : Prop :=
  r.progress = recomputeProgress r.tasks

/-- A `majorNonConformities` entry `{question, clause, impact}`. -/
structure NonConformity where
  question : String
  clause : String
  impact : String
deriving DecidableEq, Repr

/-- The stored `categoryScores` mapping `{Plan, Do, Check, Act}` of a
questionnaire (each a 0-100 number). -/
structure CategoryScores where
  plan : ℚ
  pdo : ℚ
  check : ℚ
  act : ℚ
deriving DecidableEq, Repr

/-- `Object.entries(questionnaire.categoryScores)` in the schema's key
order Plan, Do, Check, Act. -/
def categoryEntries (cs : CategoryScores) : List (Category × ℚ) :=
  [(.Plan, cs.plan), (.Do, cs.pdo), (.Check, cs.check), (.Act, cs.act)]

/-- The display name of a category, for string interpolation. -/
def Category.name : Category → String
  | .Plan => "Plan"
  | .Do => "Do"
  | .Check => "Check"
  | .Act => "Act"

/-- A persisted questionnaire as consumed by `POST /api/roadmaps`: the
stored responses plus the derived fields the generator reads. -/
structure StoredQuestionnaire where
  responses : List ScoredResponse
  categoryScores : CategoryScores
  maturityLevel : MaturityLevel
  majorNonConformities : List NonConformity
deriving DecidableEq, Repr

/-- The task pushed for one `majorNonConformities` entry
(roadmaps.js, lines 85-95): title `Resolve: {question}`, category of the
first response with the same clause (`find`), defaulting to `Plan`
(`?.category || 'Plan'`), priority Critical, effort `1-2 weeks`, cost
`Medium`, status `Not Started`.  Subdocument `_id`s are assigned by the
persistence layer, modelled here as 0. -/
def ncTask (q : StoredQuestionnaire) (nc : NonConformity) : RoadmapTask :=
  { id := 0
    title := "Resolve: " ++ nc.question
    description := "Address the non-conformity identified in " ++ nc.clause
      ++ ". " ++ nc.impact
    category :=
      match q.responses.find? (fun r => r.input.clause == nc.clause) with
      | some r => r.input.category
      | none => .Plan
    priority := .Critical
    estimatedEffort := "1-2 weeks"
    cost := "Medium"
    status := .NotStarted
    completedDate := none }

/-- The task pushed for a category whose score is below 60
(roadmaps.js, lines 98-110). -/
def catTask (c : Category) (score : ℚ) : RoadmapTask :=
  { id := 0
    title := "Improve " ++ c.name ++ " Category Score"
    description := "Current score: " ++ toString score
      ++ "%. Focus on implementing controls and processes to improve this category."
    category := c
    priority := if score < 40 then .High else .Medium
    estimatedEffort := "2-4 weeks"
    cost := "Medium"
    status := .NotStarted
    completedDate := none }

/-- `initialTasks` of roadmap generation: one push per non-conformity
(`questionnaire.majorNonConformities.forEach`), then one push per category
entry with score below 60
(`Object.entries(questionnaire.categoryScores).forEach`). -/
def initialTasks (q : StoredQuestionnaire) : List RoadmapTask :=
  let tasks1 := q.majorNonConformities.foldl (fun acc nc => acc ++ [ncTask q nc]) []
  (categoryEntries q.categoryScores).foldl
    (fun acc p => if p.2 < 60 then acc ++ [catTask p.1 p.2] else acc) tasks1

/-- Creation of a roadmap by `POST /api/roadmaps`: the document is built
without any `progress` value (schema defaults 0), and its first save runs
the pre-save hook with every path — in particular `tasks` — modified. -/
def createRoadmap (title description : String) (timeline cost : String)
    (tasks : List RoadmapTask) (milestones : List Milestone) (now : Int) : Roadmap :=
  preSave
    { title := title
      description := description
      status := .Draft
      estimatedTimeline := timeline
      totalEstimatedCost := cost
      tasks := tasks
      milestones := milestones
      progress := ⟨0, ⟨0, 0, 0, 0⟩⟩
      lastUpdated := now }
    true now

/-- A concrete task (fixture for the concrete instances below). -/
def sampleTask : RoadmapTask :=
  ⟨1, "Implement access control", "Set up role-based access control", .Plan,
    .High, "1-2 weeks", "Medium", .NotStarted, none⟩

/-- A concrete completed task with a completion date. -/
def sampleDoneTask : RoadmapTask :=
  ⟨2, "Review policies", "Annual review of security policies", .Do,
    .Medium, "3-5 days", "Low", .Completed, some 3⟩

/-- A concrete milestone. -/
def sampleMilestone : Milestone :=
  ⟨"Initial Assessment Complete", "Questionnaire completed", 30, "Pending", 0⟩

/-- A concrete roadmap whose stored progress matches its task list. -/
def sampleRoadmap : Roadmap :=
  ⟨"Security roadmap", "Initial remediation roadmap", .Active, "3-6 months",
    "Medium", [sampleTask, sampleDoneTask], [sampleMilestone],
    recomputeProgress [sampleTask, sampleDoneTask], 0⟩

/-- A concrete non-conformity entry whose clause matches no stored response. -/
def sampleNC : NonConformity :=
  ⟨"Is there an incident response plan?", "A.16", "Major gap in incident handling"⟩

/-- A concrete scored questionnaire. -/
def sampleQuestionnaire : StoredQuestionnaire :=
  ⟨[⟨⟨"q1", "Question 1", .Do, "A.5", 3, false, "Oui"⟩, 3⟩],
    ⟨50, 60, 70, 80⟩, getMaturityLevel 50, [sampleNC]⟩

/-! Theorems. -/

/-- Claim C1: for every submitted response with weight `w > 0`, the derived
per-response score equals `w` for `Oui`, `w * 0.5` for `Partiellement` and
`0` for `Non`, identically on the submission path and on the update path. -/
theorem per_response_score_correct (r : ResponseInput) (hw : 0 < r.weight) :
    (r.response = "Oui" → scoreResponsePost r = r.weight) ∧
    (r.response = "Partiellement" → scoreResponsePost r = r.weight * (1/2)) ∧
    (r.response = "Non" → scoreResponsePost r = 0) ∧
    scoreResponsePut r = scoreResponsePost r := by
  refine ⟨fun h => ?_, fun h => ?_, fun h => ?_, rfl⟩ <;>
    simp +decide [scoreResponsePost, h]

/-- Witness for C1 at a concrete response of weight 3. -/
theorem per_response_score_correct_witness :
    0 < (⟨"q1", "Question 1", .Plan, "A.5", 3, false, "Oui"⟩ : ResponseInput).weight ∧
    scoreResponsePost ⟨"q1", "Question 1", .Plan, "A.5", 3, false, "Oui"⟩ = 3 := by
  constructor
  · norm_num
  · have h := per_response_score_correct
      ⟨"q1", "Question 1", .Plan, "A.5", 3, false, "Oui"⟩ (by norm_num)
    exact h.1 rfl

/-- Claim C2: the maturity classification assigns the first matching tier by
inclusive lower bound in descending order (90 Excellence, 75 Avancé,
60 Intermédiaire, 40 Basique, otherwise Critique), and in particular 90 is
Excellence, 89.9 is Avancé, 40 is Basique and 39.9 is Critique. -/
theorem maturity_classification_tiers (s : ℚ) (h0 : 0 ≤ s) (h100 : s ≤ 100) :
    ((90 ≤ s → (getMaturityLevel s).level = "Excellence") ∧
     (75 ≤ s → s < 90 → (getMaturityLevel s).level = "Avancé") ∧
     (60 ≤ s → s < 75 → (getMaturityLevel s).level = "Intermédiaire") ∧
     (40 ≤ s → s < 60 → (getMaturityLevel s).level = "Basique") ∧
     (s < 40 → (getMaturityLevel s).level = "Critique")) ∧
    (getMaturityLevel 90).level = "Excellence" ∧
    (getMaturityLevel (899/10)).level = "Avancé" ∧
    (getMaturityLevel 40).level = "Basique" ∧
    (getMaturityLevel (399/10)).level = "Critique" := by
  refine ⟨⟨fun h1 => ?_, fun h1 h2 => ?_, fun h1 h2 => ?_, fun h1 h2 => ?_,
      fun h1 => ?_⟩, ?_, ?_, ?_, ?_⟩ <;>
    simp only [getMaturityLevel] <;> split_ifs <;> first | rfl | linarith

/-- Witness for C2 at the concrete score 90. -/
theorem maturity_classification_tiers_witness :
    (0 : ℚ) ≤ 90 ∧ (90 : ℚ) ≤ 100 ∧ (getMaturityLevel 90).level = "Excellence" := by
  refine ⟨by norm_num, by norm_num, ?_⟩
  exact (maturity_classification_tiers 90 (by norm_num) (by norm_num)).1.1 (by norm_num)

/-- Counterexample to claim C5 as stated: a submission whose single response
has weight 0 (≤ 0) passes the route validators — `weight` is only checked
with `isNumeric()` — and a questionnaire is created, so scoring does not
fail with `InvalidWeight`. -/
theorem weight_zero_accepted_counterexample :
    (⟨"q1", "Question 1", .Plan, "A.5", 0, true, "Oui"⟩ : ResponseInput).weight ≤ 0 ∧
    submitQuestionnaire "u1" [⟨"q1", "Question 1", .Plan, "A.5", 0, true, "Oui"⟩] =
      .ok ⟨"u1", [⟨⟨"q1", "Question 1", .Plan, "A.5", 0, true, "Oui"⟩, 0⟩]⟩ := by
  exact ⟨le_refl 0, rfl⟩

/-- Claim C5 (amended): submission fails with a validation error — before any
questionnaire state is created — whenever some response value lies outside
{Oui, Non, Partiellement}; a weight ≤ 0 is accepted, because the validators
only require the weight to be numeric. -/
theorem invalid_response_value_rejected (userId : String)
    (responses : List ResponseInput) (r : ResponseInput) (hr : r ∈ responses)
    (hv : isValidResponseValue r.response = false) :
    submitQuestionnaire userId responses = .error .validationFailed := by
  have hall : responses.all validateResponse = false := by
    rw [List.all_eq_false]
    refine ⟨r, hr, ?_⟩
    simp [validateResponse, hv]
  unfold submitQuestionnaire
  split_ifs with h1 h2
  · rfl
  · rfl
  · rw [hall] at h2
    simp at h2

/-- Witness for the amended C5 at a concrete out-of-range response value. -/
theorem invalid_response_value_rejected_witness :
    (⟨"q1", "Question 1", .Plan, "A.5", 3, false, "Maybe"⟩ : ResponseInput) ∈
      [(⟨"q1", "Question 1", .Plan, "A.5", 3, false, "Maybe"⟩ : ResponseInput)] ∧
    isValidResponseValue
      (⟨"q1", "Question 1", .Plan, "A.5", 3, false, "Maybe"⟩ : ResponseInput).response
        = false ∧
    submitQuestionnaire "u1" [⟨"q1", "Question 1", .Plan, "A.5", 3, false, "Maybe"⟩] =
      .error .validationFailed := by
  refine ⟨List.mem_singleton.mpr rfl, rfl, ?_⟩
  exact invalid_response_value_rejected "u1" _ _ (List.mem_singleton.mpr rfl) rfl

/-- Incrementing one category's counter, read back pointwise. -/
theorem catCounts_get_bump (m : CatCounts) (c' c : Category) :
    (m.bump c').get c = m.get c + (if c' = c then 1 else 0) := by
  cases c' <;> cases c <;> simp [CatCounts.bump, CatCounts.get]

/-- The all-zero counter record reads 0 in every category. -/
theorem catCounts_get_zero (c : Category) : (⟨0, 0, 0, 0⟩ : CatCounts).get c = 0 := by
  cases c <;> rfl

/-- The second `forEach` of the `categoryProgress` virtual counts, per
category, exactly the tasks of that category. -/
theorem countsPerCategory_get (tasks : List RoadmapTask) (c : Category) :
    (countsPerCategory tasks).get c =
      (tasks.filter (fun t => t.category == c)).length := by
  suffices h : ∀ (l : List RoadmapTask) (m : CatCounts),
      (l.foldl (fun m t => m.bump t.category) m).get c =
        m.get c + (l.filter (fun t => t.category == c)).length by
    simpa [countsPerCategory, catCounts_get_zero] using h tasks ⟨0, 0, 0, 0⟩
  intro l
  induction l with
  | nil => intro m; simp
  | cons a l ih =>
      intro m
      rw [List.foldl_cons, ih, catCounts_get_bump]
      by_cases hac : a.category = c
      · simp [List.filter_cons, hac]
        omega
      · simp [List.filter_cons, hac]

/-- The first `forEach` of the `categoryProgress` virtual counts, per
category, exactly the completed tasks of that category. -/
theorem completedPerCategory_get (tasks : List RoadmapTask) (c : Category) :
    (completedPerCategory tasks).get c =
      (tasks.filter (fun t => t.status == .Completed && t.category == c)).length := by
  suffices h : ∀ (l : List RoadmapTask) (m : CatCounts),
      (l.foldl (fun m t => if t.status == .Completed then m.bump t.category else m)
          m).get c =
        m.get c +
          (l.filter (fun t => t.status == .Completed && t.category == c)).length by
    simpa [completedPerCategory, catCounts_get_zero] using h tasks ⟨0, 0, 0, 0⟩
  intro l
  induction l with
  | nil => intro m; simp
  | cons a l ih =>
      intro m
      rw [List.foldl_cons]
      by_cases hst : a.status = TaskStatus.Completed
      · rw [if_pos (by simp [hst]), ih, catCounts_get_bump]
        by_cases hac : a.category = c
        · simp [List.filter_cons, hst, hac]
          omega
        · simp [List.filter_cons, hst, hac]
      · rw [if_neg (by simp [hst]), ih]
        simp [List.filter_cons, hst]

/-- Claim C3: the recomputed progress is `round(completed/total*100)` overall
(0 on an empty task list) and, per category independently,
`round(completed_in_c/total_in_c*100)` when the category has tasks and 0
otherwise; the empty task list yields all-zero progress. -/
theorem progress_recompute_formula (tasks : List RoadmapTask) :
    (overallProgress tasks =
      if tasks.length = 0 then 0
      else jsRound (((tasks.filter (fun t => t.status == .Completed)).length : ℚ)
        / (tasks.length : ℚ) * 100)) ∧
    (∀ c : Category,
      (categoryProgress tasks).get c =
        if 0 < (tasks.filter (fun t => t.category == c)).length then
          jsRound
            (((tasks.filter (fun t => t.status == .Completed && t.category == c)).length :
                ℚ)
              / ((tasks.filter (fun t => t.category == c)).length : ℚ) * 100)
        else 0) ∧
    overallProgress [] = 0 ∧
    categoryProgress [] = ⟨0, 0, 0, 0⟩ := by
  refine ⟨rfl, fun c => ?_, rfl, rfl⟩
  cases c <;>
    simp only [categoryProgress, CatProgress.get] <;>
    rw [countsPerCategory_get, completedPerCategory_get]

/-- Claim C4 (code bug): the claim expects every exposed mutation to leave
the stored `progress` equal to the pure recomputation, but `addTask` and
`addMilestone` construct their subdocument with `new this.model('Task')` /
`new this.model('Milestone')`, and no model of either name is registered in
the application, so both methods throw `MissingSchemaError` on every call,
before any mutation — the append and the progress recomputation are never
reached. -/
theorem roadmap_add_operations_throw_missing_schema (r : Roadmap)
    (t : RoadmapTask) (m : Milestone) (now : Int) :
    r.addTask t now = .error (.missingSchema "Task") ∧
    r.addMilestone m now = .error (.missingSchema "Milestone") :=
  ⟨rfl, rfl⟩

/-- Claim C6: `updateTaskStatus` with a `taskId` resolving to no task in the
roadmap's task sequence fails with `TaskNotFound`; no successful state is
produced, so the roadmap — its progress and its tasks — is unchanged. -/
theorem update_unknown_task_fails (r : Roadmap) (taskId : Nat)
    (st : TaskStatus) (now : Int) (h : ∀ t ∈ r.tasks, t.id ≠ taskId) :
    r.updateTaskStatus taskId st now = .error .taskNotFound := by
  have hfind : r.tasks.find? (fun x => x.id == taskId) = none := by
    rw [List.find?_eq_none]
    intro x hx
    simpa using h x hx
  unfold Roadmap.updateTaskStatus
  rw [hfind]

/-- Witness for C6 at a concrete roadmap and an unknown task id. -/
theorem update_unknown_task_fails_witness :
    (∀ t ∈ sampleRoadmap.tasks, t.id ≠ 99) ∧
    sampleRoadmap.updateTaskStatus 99 .Completed 5 = .error .taskNotFound := by
  constructor
  · decide
  · exact update_unknown_task_fails sampleRoadmap 99 .Completed 5 (by decide)

/-- Setting a task's status never changes its subdocument id. -/
theorem applyStatus_id (t : RoadmapTask) (st : TaskStatus) (now : Int) :
    (applyStatus t st now).id = t.id := by
  simp only [applyStatus]
  split <;> rfl

/-- Mutating the task found by `tasks.id(taskId)` updates exactly the task
that a subsequent lookup resolves. -/
theorem find?_updateFirst (taskId : Nat) (st : TaskStatus) (now : Int) :
    ∀ (tasks : List RoadmapTask) (t : RoadmapTask),
      tasks.find? (fun x => x.id == taskId) = some t →
      (updateFirst tasks taskId st now).find? (fun x => x.id == taskId) =
        some (applyStatus t st now) := by
  intro tasks
  induction tasks with
  | nil => intro t h; simp at h
  | cons a ts ih =>
      intro t h
      by_cases ha : a.id = taskId
      · rw [List.find?_cons_of_pos _ (by simpa using ha)] at h
        injection h with h2
        subst h2
        rw [updateFirst, if_pos ha]
        exact List.find?_cons_of_pos _ (by simp [applyStatus_id, ha])
      · rw [List.find?_cons_of_neg _ (by simpa using ha)] at h
        rw [updateFirst, if_neg ha]
        rw [List.find?_cons_of_neg _ (by simpa using ha)]
        exact ih t h

/-- On a resolving `taskId`, `updateTaskStatus` succeeds and the task the id
subsequently resolves is the found task with the mutation applied. -/
theorem updateTaskStatus_ok (r : Roadmap) (taskId : Nat) (st : TaskStatus)
    (now : Int) (t : RoadmapTask)
    (h : r.tasks.find? (fun x => x.id == taskId) = some t) :
    r.updateTaskStatus taskId st now =
      .ok (preSave { r with tasks := updateFirst r.tasks taskId st now } true now) ∧
    (preSave { r with tasks := updateFirst r.tasks taskId st now } true
        now).tasks.find? (fun x => x.id == taskId) = some (applyStatus t st now) := by
  constructor
  · unfold Roadmap.updateTaskStatus
    rw [h]
  · exact find?_updateFirst taskId st now r.tasks t h

/-- Claim C7: completing a resolved task sets its status to Completed and its
`completedDate` to the current time; completing it again refreshes the
timestamp. -/
theorem complete_task_sets_completed_date (r : Roadmap) (taskId : Nat)
    (t : RoadmapTask) (now now2 : Int)
    (h : r.tasks.find? (fun x => x.id == taskId) = some t) :
    ∃ r1, r.updateTaskStatus taskId .Completed now = .ok r1 ∧
      r1.tasks.find? (fun x => x.id == taskId) =
        some { t with status := .Completed, completedDate := some now } ∧
      ∃ r2, r1.updateTaskStatus taskId .Completed now2 = .ok r2 ∧
        r2.tasks.find? (fun x => x.id == taskId) =
          some { t with status := .Completed, completedDate := some now2 } := by
  have h1 := updateTaskStatus_ok r taskId .Completed now t h
  have happ : applyStatus t .Completed now =
      { t with status := .Completed, completedDate := some now } := by
    simp [applyStatus]
  refine ⟨_, h1.1, ?_, ?_⟩
  · rw [h1.2, happ]
  · have h2 := updateTaskStatus_ok _ taskId .Completed now2 (applyStatus t .Completed now) h1.2
    refine ⟨_, h2.1, ?_⟩
    rw [h2.2]
    simp [applyStatus]

/-- Witness for C7 at a concrete roadmap, completing task 1 at times 5 and 7. -/
theorem complete_task_sets_completed_date_witness :
    sampleRoadmap.tasks.find? (fun x => x.id == 1) = some sampleTask ∧
    (∃ r1, sampleRoadmap.updateTaskStatus 1 .Completed 5 = .ok r1 ∧
      r1.tasks.find? (fun x => x.id == 1) =
        some { sampleTask with status := .Completed, completedDate := some 5 } ∧
      ∃ r2, r1.updateTaskStatus 1 .Completed 7 = .ok r2 ∧
        r2.tasks.find? (fun x => x.id == 1) =
          some { sampleTask with status := .Completed, completedDate := some 7 }) :=
  ⟨rfl, complete_task_sets_completed_date sampleRoadmap 1 sampleTask 5 7 rfl⟩

/-- Claim C10: moving a completed task (with `completedDate` set) to any
non-Completed status changes only the status field; the previously set
`completedDate` stays in place. -/
theorem uncomplete_preserves_completed_date (r : Roadmap) (taskId : Nat)
    (t : RoadmapTask) (d now : Int) (st : TaskStatus)
    (h : r.tasks.find? (fun x => x.id == taskId) = some t)
    (hc : t.status = .Completed) (hd : t.completedDate = some d)
    (hst : st ≠ .Completed) :
    ∃ r1, r.updateTaskStatus taskId st now = .ok r1 ∧
      r1.tasks.find? (fun x => x.id == taskId) = some { t with status := st } ∧
      ({ t with status := st } : RoadmapTask).completedDate = some d := by
  have h1 := updateTaskStatus_ok r taskId st now t h
  have happ : applyStatus t st now = { t with status := st } := by
    simp [applyStatus, hst]
  exact ⟨_, h1.1, by rw [h1.2, happ], hd⟩

/-- Witness for C10: task 2 is completed at time 3, moved to In Progress at
time 9, and keeps its completion date. -/
theorem uncomplete_preserves_completed_date_witness :
    sampleRoadmap.tasks.find? (fun x => x.id == 2) = some sampleDoneTask ∧
    sampleDoneTask.status = .Completed ∧
    sampleDoneTask.completedDate = some 3 ∧
    TaskStatus.InProgress ≠ TaskStatus.Completed ∧
    (∃ r1, sampleRoadmap.updateTaskStatus 2 .InProgress 9 = .ok r1 ∧
      r1.tasks.find? (fun x => x.id == 2) =
        some { sampleDoneTask with status := .InProgress } ∧
      ({ sampleDoneTask with status := .InProgress } : RoadmapTask).completedDate =
        some 3) :=
  ⟨rfl, rfl, rfl, by decide,
    uncomplete_preserves_completed_date sampleRoadmap 2 sampleDoneTask 3 9
      .InProgress rfl rfl rfl (by decide)⟩

/-- A `forEach`/push accumulation is an append of the mapped list. -/
theorem foldl_push_eq_map {α β : Type} (f : α → β) :
    ∀ (l : List α) (acc : List β),
      l.foldl (fun a x => a ++ [f x]) acc = acc ++ l.map f := by
  intro l
  induction l with
  | nil => intro acc; simp
  | cons x l ih =>
      intro acc
      rw [List.foldl_cons, ih]
      simp

/-- A guarded `forEach`/push accumulation (push when the score is below 60)
is an append of the mapped filtered list. -/
theorem foldl_push_filter_eq (f : Category × ℚ → RoadmapTask) :
    ∀ (l : List (Category × ℚ)) (acc : List RoadmapTask),
      l.foldl (fun a p => if p.2 < 60 then a ++ [f p] else a) acc =
        acc ++ (l.filter (fun p => decide (p.2 < 60))).map f := by
  intro l
  induction l with
  | nil => intro acc; simp
  | cons x l ih =>
      intro acc
      rw [List.foldl_cons]
      by_cases hx : x.2 < 60
      · rw [if_pos hx, ih, List.filter_cons, if_pos (by simpa using hx)]
        simp
      · rw [if_neg hx, ih, List.filter_cons, if_neg (by simpa using hx)]

/-- Claim C8: the generated initial tasks are exactly one Critical task per
major non-conformity (title `Resolve: {question}`, category of the matching
response, effort `1-2 weeks`, cost `Medium`, status `Not Started`) followed
by one task per category scoring below 60 (High priority below 40, else
Medium, effort `2-4 weeks`, cost `Medium`). -/
theorem initial_tasks_exact (q : StoredQuestionnaire) :
    initialTasks q =
      q.majorNonConformities.map (fun nc =>
        { id := 0
          title := "Resolve: " ++ nc.question
          description := "Address the non-conformity identified in " ++ nc.clause
            ++ ". " ++ nc.impact
          category :=
            match q.responses.find? (fun r => r.input.clause == nc.clause) with
            | some r => r.input.category
            | none => .Plan
          priority := .Critical
          estimatedEffort := "1-2 weeks"
          cost := "Medium"
          status := .NotStarted
          completedDate := none })
      ++ ((categoryEntries q.categoryScores).filter
            (fun p => decide (p.2 < 60))).map (fun p =>
        { id := 0
          title := "Improve " ++ p.1.name ++ " Category Score"
          description := "Current score: " ++ toString p.2
            ++ "%. Focus on implementing controls and processes to improve this category."
          category := p.1
          priority := if p.2 < 40 then .High else .Medium
          estimatedEffort := "2-4 weeks"
          cost := "Medium"
          status := .NotStarted
          completedDate := none }) := by
  unfold initialTasks
  rw [foldl_push_eq_map (ncTask q), foldl_push_filter_eq (fun p => catTask p.1 p.2)]
  rfl

/-- Claim C9: the category of a task generated from a `majorNonConformities`
entry comes from the first response whose clause equals the entry's clause,
and defaults to `Plan` when no response matches. -/
theorem nc_task_category_from_first_matching_clause (q : StoredQuestionnaire)
    (nc : NonConformity) :
    (∀ r0, q.responses.find? (fun r => r.input.clause == nc.clause) = some r0 →
        (ncTask q nc).category = r0.input.category) ∧
    ((∀ r0 ∈ q.responses, r0.input.clause ≠ nc.clause) →
        (ncTask q nc).category = .Plan) := by
  constructor
  · intro r0 h
    simp [ncTask, h]
  · intro h
    have hfind : q.responses.find? (fun r => r.input.clause == nc.clause) = none := by
      rw [List.find?_eq_none]
      intro x hx
      simpa using h x hx
    simp [ncTask, hfind]

/-- Witness for C9: the sample non-conformity's clause `A.16` matches no
stored response, so its generated task defaults to category `Plan`. -/
theorem nc_task_category_defaults_witness :
    (∀ r0 ∈ sampleQuestionnaire.responses, r0.input.clause ≠ sampleNC.clause) ∧
    (ncTask sampleQuestionnaire sampleNC).category = .Plan := by
  constructor
  · decide
  · exact (nc_task_category_from_first_matching_clause sampleQuestionnaire
      sampleNC).2 (by decide)
